import Mathlib

/-!
Verification of the turbowings sandboxed-filesystem core and the
surrounding singleton / environment-variable helpers.

The filesystem layer (Path Resolver, Usage Tracker, Operation Layer) is
exercised by the repository's tests but its implementation is not part of
the provided sources, so it is modelled from the specification (sections
4.1, 4.2, 4.3 and 8 of the design document).  The cron scheduler guard,
the Docker client singleton and `Variables.Get` are embedded from the
provided Go sources.
-/

deriving instance DecidableEq for Except

namespace TW

/-- An absolute host path, as a list of components. -/
abbrev Path := List String

/-- Modelled from the spec: a directory entry on the host filesystem.
A file carries its byte content; a symlink carries its (absolute) target
path; directories carry nothing. -/
inductive Entry
  | file (content : List Nat)
  | dir
  | symlink (target : Path)
deriving DecidableEq

/-- Modelled from the spec: the host filesystem, a finite map from
absolute paths to entries, represented as an association list. -/
abbrev FS := List (Path × Entry)

/-- Look up the entry stored at absolute path `p`. -/
def lookupFS : FS → Path → Option Entry
  | [], _ => none
  | (q, e) :: rest, p => if q = p then some e else lookupFS rest p

/-- `p` lies inside the sandbox rooted at `root` (the root itself counts). -/
def underRoot (root p : Path) : Bool :=
  root.isPrefixOf p

/-- Result of following a (possibly chained) symlink at an absolute path. -/
inductive ChaseRes
  | entry (real : Path) (e : Entry)
  | missing (real : Path)
  | escape
  | loop
deriving DecidableEq

/-- Modelled from the spec (§4.1): follow the symlink chain starting at
absolute path `p`, with a bounded hop count.  If any target in the chain
lies (or would lie) outside `root`, the whole chase is an escape. -/
def chase (fs : FS) (root : Path) : Nat → Path → ChaseRes
  | 0, _ => .loop
  | fuel+1, p =>
    match lookupFS fs p with
    | some (.symlink t) => if underRoot root t then chase fs root fuel t else .escape
    | some e => .entry p e
    | none => .missing p

/-- Modelled from the spec (§4.1, §9): the classification of a resolved
relative path.  `inside` carries the real path and entry; `outside` marks
a final component escaping via symlink; `notDir` marks an ancestor
component that cannot be traversed as a directory (an externally-escaping
symlink, or a plain file); `missing` carries the existing real parent and
the unresolved suffix; `links` marks hop-budget exhaustion. -/
inductive Resolution
  | inside (real : Path) (e : Entry)
  | outside
  | notDir
  | missing (parent : Path) (suffix : List String)
  | links
deriving DecidableEq

/-- Modelled from the spec (§4.1): walk the components of a relative path
starting from real directory `cur`.  `.` is skipped, `..` clamps at
`root`, symlinks are chased with a hop budget.  `dirCtx` is true when the
caller needs the final component to be a traversable directory (rename
destination parents, delete parents), in which case a final escape or
non-directory is `notDir` rather than `outside`/`inside`. -/
def resolveGo (fs : FS) (root : Path) (fuel : Nat) (dirCtx : Bool) :
    Path → List String → Resolution
  | cur, [] =>
    match lookupFS fs cur with
    | some e => .inside cur e
    | none => .missing cur []
  | cur, [c] =>
    if c = "" ∨ c = "." then
      resolveGo fs root fuel dirCtx cur []
    else if c = ".." then
      resolveGo fs root fuel dirCtx
        (if cur.length ≤ root.length then root else cur.dropLast) []
    else
      match chase fs root fuel (cur ++ [c]) with
      | .escape => if dirCtx then .notDir else .outside
      | .loop => .links
      | .missing _ => .missing cur [c]
      | .entry q .dir => .inside q .dir
      | .entry q e => if dirCtx then .notDir else .inside q e
  | cur, c :: r :: rs =>
    if c = "" ∨ c = "." then
      resolveGo fs root fuel dirCtx cur (r :: rs)
    else if c = ".." then
      resolveGo fs root fuel dirCtx
        (if cur.length ≤ root.length then root else cur.dropLast) (r :: rs)
    else
      match chase fs root fuel (cur ++ [c]) with
      | .escape => .notDir
      | .loop => .links
      | .missing _ => .missing cur (c :: r :: rs)
      | .entry q .dir => resolveGo fs root fuel dirCtx q (r :: rs)
      | .entry _ _ => .notDir

/-- The symlink hop budget used by the resolver. -/
def hopBudget : Nat := 40

/-- Modelled from the spec (§4.1): resolve a caller-supplied relative path
against the sandbox root. -/
def resolvePath (fs : FS) (root : Path) (dirCtx : Bool) (comps : List String) :
    Resolution :=
  resolveGo fs root hopBudget dirCtx root comps

/-- Modelled from the spec (§4.2, §7): the error taxonomy of the
operation layer. -/
inductive FSErr
  | BadPathResolution
  | NotExist
  | NotDirectory
  | QuotaExceeded
  | IsDirectory
  | TooManyLinks
deriving DecidableEq

/-- Modelled from the spec (§3): a server sandbox — host filesystem,
sandbox root, usage counter and disk quota. -/
structure SB where
  fs : FS
  root : Path
  usage : Nat
  quota : Nat
deriving DecidableEq

/-- Bytes an entry contributes to the usage counter. -/
def entrySize : Entry → Nat
  | .file c => c.length
  | _ => 0

/-- Insert (or replace) the entry at key `p`. -/
def insertFS (fs : FS) (p : Path) (e : Entry) : FS :=
  (p, e) :: fs.filter (fun pe => !(pe.1 == p))

/-- Remove exactly the entry at key `p`. -/
def removeKey (fs : FS) (p : Path) : FS :=
  fs.filter (fun pe => !(pe.1 == p))

/-- Remove the whole subtree rooted at `p` (including `p` itself). -/
def removeTree (fs : FS) (p : Path) : FS :=
  fs.filter (fun pe => !(underRoot p pe.1))

/-- Total file bytes stored in the subtree rooted at `p`. -/
def treeSize (fs : FS) (p : Path) : Nat :=
  (fs.filter (fun pe => underRoot p pe.1)).foldl (fun a pe => a + entrySize pe.2) 0

/-- Create directory entries for each component of `suffix` below `parent`. -/
def addDirs (fs : FS) (parent : Path) : List String → FS
  | [] => fs
  | c :: rest => addDirs (insertFS fs (parent ++ [c]) .dir) (parent ++ [c]) rest

/-- Split a component list into its parent components and final name. -/
def splitLast (comps : List String) : Option (List String × String) :=
  match comps.getLast? with
  | none => none
  | some n => some (comps.dropLast, n)

/-- Modelled from the spec (§4.2 Write): resolve in creating mode; an
escaping final component is `BadPathResolution`, an escaping ancestor is
`NotDirectory`; a write that would push usage over the quota fails with
`QuotaExceeded` before touching the tree; otherwise the content is
replaced (or the missing suffix created) and the usage counter updated by
the delta between old and new size.  An error leaves the sandbox state
unchanged (the model returns no new state on error, mirroring the
temporary-file/atomic-replace discipline). -/
def Writefile (sb : SB) (comps : List String) (data : List Nat) :
    Except FSErr SB :=
  match resolvePath sb.fs sb.root false comps with
  | .inside q (.file old) =>
    if sb.usage - old.length + data.length > sb.quota then .error .QuotaExceeded
    else .ok { sb with fs := insertFS sb.fs q (.file data),
                       usage := sb.usage - old.length + data.length }
  | .inside _ .dir => .error .IsDirectory
  | .inside _ (.symlink _) => .error .BadPathResolution
  | .outside => .error .BadPathResolution
  | .notDir => .error .NotDirectory
  | .missing parent suffix =>
    if sb.usage + data.length > sb.quota then .error .QuotaExceeded
    else
      .ok { sb with fs := insertFS (addDirs sb.fs parent suffix.dropLast)
                            (parent ++ suffix) (.file data),
                    usage := sb.usage + data.length }
  | .links => .error .TooManyLinks

/-- Modelled from the spec (§4.2 CreateDirectory): the directory is
addressed as `p ++ name`; resolution is in creating mode, so an escaping
final component is `BadPathResolution` and an escaping ancestor is
`NotDirectory`; the missing suffix is created as nested directories. -/
def CreateDirectory (sb : SB) (ncomps pcomps : List String) :
    Except FSErr SB :=
  match resolvePath sb.fs sb.root false (pcomps ++ ncomps) with
  | .inside _ .dir => .ok sb
  | .inside _ _ => .error .NotDirectory
  | .outside => .error .BadPathResolution
  | .notDir => .error .NotDirectory
  | .missing parent suffix => .ok { sb with fs := addDirs sb.fs parent suffix }
  | .links => .error .TooManyLinks

/-- Modelled from the spec (§4.2 Stat): strict resolution; an escape via
symlink is reported as `NotExist`, exactly like genuine absence. -/
def Stat (sb : SB) (comps : List String) : Except FSErr Entry :=
  match resolvePath sb.fs sb.root false comps with
  | .inside _ e => .ok e
  | .outside => .error .NotExist
  | .notDir => .error .NotDirectory
  | .missing _ _ => .error .NotExist
  | .links => .error .TooManyLinks

/-- Modelled from the spec (§4.2 Copy): strict resolution; an escaping
path has no valid source content, so it reports `NotExist` like a missing
path; otherwise the content is copied to a sibling entry, subject to the
quota. -/
def Copy (sb : SB) (comps : List String) : Except FSErr SB :=
  match resolvePath sb.fs sb.root false comps with
  | .inside q (.file c) =>
    if sb.usage + c.length > sb.quota then .error .QuotaExceeded
    else
      match splitLast q with
      | some (d, n) =>
        .ok { sb with fs := insertFS sb.fs (d ++ [n ++ " copy"]) (.file c),
                      usage := sb.usage + c.length }
      | none => .error .NotExist
  | .inside _ .dir => .error .IsDirectory
  | .inside _ (.symlink _) => .error .NotExist
  | .outside => .error .NotExist
  | .notDir => .error .NotDirectory
  | .missing _ _ => .error .NotExist
  | .links => .error .TooManyLinks

/-- Modelled from the spec (§4.2 Delete): the parent is resolved as a
directory context; the final component is looked up without following a
symlink, and only the directory entry itself is removed — a symlink's
target is never touched. -/
def Delete (sb : SB) (comps : List String) : Except FSErr SB :=
  match splitLast comps with
  | none => .error .NotExist
  | some (dcomps, name) =>
    match resolvePath sb.fs sb.root true dcomps with
    | .inside q .dir =>
      let p := q ++ [name]
      match lookupFS sb.fs p with
      | none => .error .NotExist
      | some .dir =>
        .ok { sb with fs := removeTree sb.fs p,
                      usage := sb.usage - treeSize sb.fs p }
      | some e =>
        .ok { sb with fs := removeKey sb.fs p,
                      usage := sb.usage - entrySize e }
    | .inside _ _ => .error .NotDirectory
    | .outside => .error .NotExist
    | .notDir => .error .NotDirectory
    | .missing _ _ => .error .NotExist
    | .links => .error .TooManyLinks

/-- Move the subtree rooted at `src` to `dst` (used for directory renames). -/
def moveTree (fs : FS) (src dst : Path) : FS :=
  ((fs.filter (fun pe => underRoot src pe.1)).map
      (fun pe => (dst ++ pe.1.drop src.length, pe.2)))
    ++ fs.filter (fun pe => !(underRoot src pe.1) && !(underRoot dst pe.1))

/-- Modelled from the spec (§4.2 Rename): the source's parent is resolved
as a directory context and the source entry is taken without following a
final symlink (its symlink-ness itself is what is renamed); the
destination's parent is resolved in creating mode, failing `NotDirectory`
when an ancestor of the destination is an externally-escaping symlink;
then the directory entry is relabelled, never touching a symlink's
target. -/
def Rename (sb : SB) (oldc newc : List String) : Except FSErr SB :=
  match splitLast oldc, splitLast newc with
  | some (odir, oname), some (ndir, nname) =>
    match resolvePath sb.fs sb.root true odir with
    | .inside oq .dir =>
      match lookupFS sb.fs (oq ++ [oname]) with
      | none => .error .NotExist
      | some e =>
        match resolvePath sb.fs sb.root true ndir with
        | .inside nq .dir =>
          (match e with
           | .dir => .ok { sb with fs := moveTree sb.fs (oq ++ [oname]) (nq ++ [nname]) }
           | e => .ok { sb with fs := insertFS (removeKey sb.fs (oq ++ [oname]))
                                        (nq ++ [nname]) e })
        | .inside _ _ => .error .NotDirectory
        | .outside => .error .NotDirectory
        | .notDir => .error .NotDirectory
        | .missing p suf =>
          let fs2 := addDirs sb.fs p suf
          (match e with
           | .dir => .ok { sb with fs := moveTree fs2 (oq ++ [oname]) (p ++ suf ++ [nname]) }
           | e => .ok { sb with fs := insertFS (removeKey fs2 (oq ++ [oname]))
                                        (p ++ suf ++ [nname]) e })
        | .links => .error .TooManyLinks
    | .inside _ _ => .error .NotDirectory
    | .outside => .error .NotExist
    | .notDir => .error .NotDirectory
    | .missing _ _ => .error .NotExist
    | .links => .error .TooManyLinks
  | _, _ => .error .NotExist

/-! Concrete fixtures mirroring the layout built by
`TestFilesystem_Blocks_Symlinks`: a host tree rooted at `r` whose sandbox
root is `r/server`, with a file and a directory outside the root and
links to them (and to missing outside targets, chained) inside it. -/

/-- The host tree of the symlink test fixture. -/
def testFS : FS :=
  [ (["r"], .dir),
    (["r", "server"], .dir),
    (["r", "malicious.txt"], .file [10]),
    (["r", "malicious_dir"], .dir),
    (["r", "server", "symlinked.txt"], .symlink ["r", "malicious.txt"]),
    (["r", "server", "symlinked_does_not_exist.txt"],
      .symlink ["r", "malicious_does_not_exist.txt"]),
    (["r", "server", "symlinked_does_not_exist2.txt"],
      .symlink ["r", "server", "symlinked_does_not_exist.txt"]),
    (["r", "server", "external_dir"], .symlink ["r", "malicious_dir"]),
    (["r", "server", "my_file.txt"], .file [1, 2]) ]

/-- The sandbox of the symlink test fixture. -/
def testSB : SB := { fs := testFS, root := ["r", "server"], usage := 3, quota := 100 }

/-! Fixtures for the quota scenario of §8: an empty sandbox with quota
100, and its state after each step of the scenario. -/

/-- Sixty zero bytes. -/
def d60 : List Nat := List.replicate 60 0

/-- Fifty zero bytes. -/
def d50 : List Nat := List.replicate 50 0

/-- Empty sandbox with quota 100. -/
def quotaSB : SB :=
  { fs := [(["r"], Entry.dir), (["r", "server"], Entry.dir)],
    root := ["r", "server"], usage := 0, quota := 100 }

/-- `quotaSB` after `Write("a.txt", 60 bytes)`. -/
def quotaSB1 : SB :=
  { fs := [(["r", "server", "a.txt"], Entry.file d60),
           (["r"], Entry.dir), (["r", "server"], Entry.dir)],
    root := ["r", "server"], usage := 60, quota := 100 }

/-- `quotaSB` after the retried `Write("b.txt", 50 bytes)` succeeds. -/
def quotaSB3 : SB :=
  { fs := [(["r", "server", "b.txt"], Entry.file d50),
           (["r"], Entry.dir), (["r", "server"], Entry.dir)],
    root := ["r", "server"], usage := 50, quota := 100 }

/-! The cron scheduler guard, embedded from the `cron` package
(`Scheduler` and the package-level `system.AtomicBool` named `o`). -/

/-- The external outcomes a `Scheduler` call depends on: whether the
configured timezone parses, whether `gocron.NewScheduler` succeeds,
whether each of the two job registrations succeeds, and the handle the
gocron library would return. -/
structure SchedEnv where
  tzOk : Bool
  newOk : Bool
  activityJobOk : Bool
  sftpJobOk : Bool
  handle : Nat
deriving DecidableEq

/-- The error outcomes of `cron.Scheduler`. -/
inductive SchedErr
  | alreadyCalled
  | tzParse
  | newScheduler
  | activityJob
  | sftpJob
deriving DecidableEq

/-- What one `cron.Scheduler` call returns: the scheduler (or nil), the
error (or nil), whether the body past the once-guard ran, and the value
of the package-level flag afterwards. -/
structure SchedResult where
  sched : Option Nat
  err : Option SchedErr
  constructed : Bool
  state : Bool
deriving DecidableEq

/-- `system.AtomicBool.SwapIf v`: compare-and-swap from `!v` to `v`,
returning whether the swap occurred together with the new stored
value. -/
def swapIf (cur v : Bool) : Bool × Bool :=
  if cur ≠ v then (true, v) else (false, cur)

/-- `cron.Scheduler`, embedded from the source: the guard `o.SwapIf true`
runs first; when it reports the flag was already set the call returns a
nil scheduler and an error without running any construction step;
otherwise timezone parsing, scheduler creation and the two job
registrations run in order, each failure returning nil plus an error. -/
def Scheduler (st : Bool) (env : SchedEnv) : SchedResult :=
  let s := swapIf st true
  if s.1 = false then
    { sched := none, err := some .alreadyCalled, constructed := false, state := s.2 }
  else if env.tzOk = false then
    { sched := none, err := some .tzParse, constructed := true, state := s.2 }
  else if env.newOk = false then
    { sched := none, err := some .newScheduler, constructed := true, state := s.2 }
  else if env.activityJobOk = false then
    { sched := none, err := some .activityJob, constructed := true, state := s.2 }
  else if env.sftpJobOk = false then
    { sched := none, err := some .sftpJob, constructed := true, state := s.2 }
  else
    { sched := some env.handle, err := none, constructed := true, state := s.2 }

/-- A sequence of `Scheduler` calls within one application lifecycle,
threading the package-level flag. -/
def runSched : Bool → List SchedEnv → List SchedResult
  | _, [] => []
  | st, e :: es =>
    let r := Scheduler st e
    r :: runSched r.state es

/-! The Docker client singleton, embedded from the `environment` package
(`Docker`, the package-level `sync.Once` named `_conce` and the
package-level `_client`). -/

/-- The package-level state behind `Docker()`: whether the `sync.Once`
has fired, and the stored client pointer (`none` models a nil
`*client.Client`). -/
structure DockerSt where
  onceDone : Bool
  client : Option Nat
deriving DecidableEq

/-- What one `Docker()` call returns: the client (or nil), the error (or
nil), and whether the construction inside `_conce.Do` ran. -/
structure DockerResult where
  client : Option Nat
  err : Option String
  constructed : Bool
deriving DecidableEq

/-- `errors.Wrap`: nil stays nil, a non-nil error gains the message. -/
def wrapErr (e : Option String) : Option String :=
  e.map (fun s => "environment/docker: could not create client: " ++ s)

/-- `environment.Docker`, embedded from the source.  The argument models
the outcome `client.NewClientWithOpts` would produce.  The once-guard
skips construction when it has already fired, in which case the local
`err` stays nil and the stored client is returned as-is. -/
def Docker (st : DockerSt) (env : Except String Nat) : DockerResult × DockerSt :=
  if st.onceDone then
    ({ client := st.client, err := none, constructed := false }, st)
  else
    match env with
    | .ok c =>
      ({ client := some c, err := none, constructed := true },
       { onceDone := true, client := some c })
    | .error m =>
      ({ client := none, err := wrapErr (some m), constructed := true },
       { onceDone := true, client := none })

/-- The package-level state at process start: once not fired, nil client. -/
def initDockerSt : DockerSt := { onceDone := false, client := none }

/-- A sequence of `Docker()` calls within one process, threading the
package-level state. -/
def runDocker : DockerSt → List (Except String Nat) → List DockerResult
  | _, [] => []
  | st, e :: es =>
    let r := Docker st e
    r.1 :: runDocker r.2 es

/-! `environment.Variables.Get`, embedded from the source. -/

/-- A dynamically-typed value as it arrives from the Panel's JSON. -/
inductive GoVal
  | vint (n : Int)
  | vint32 (n : Int)
  | vint64 (n : Int)
  | vfloat32 (rep : String)
  | vfloat64 (rep : String)
  | vbool (b : Bool)
  | vstring (s : String)
  | vnull
deriving DecidableEq

/-- The Go type assertion `val.(int64)`: yields the value only when the
dynamic type is `int64`; any other dynamic type panics. -/
def assertInt64 : GoVal → Except String Int
  | .vint64 n => .ok n
  | _ => .error "interface conversion: interface is int32, not int64"

/-- The `environment.Variables` map. -/
abbrev Variables := List (String × GoVal)

/-- `Variables.Get`, embedded from the source: a missing key yields `""`;
each arm converts the value to its string form — except that the `int32`
arm performs the assertion `val.(int64)` (not `val.(int32)`), which
panics on an `int32` value.  The panic is modelled as the `.error` side
of `Except`. -/
def Variables.Get (v : Variables) (key : String) : Except String String :=
  match v.find? (fun kv => kv.1 == key) with
  | none => .ok ""
  | some kv =>
    match kv.2 with
    | .vint n => .ok (toString n)
    | .vint32 _ => do
      let n ← assertInt64 kv.2
      pure (toString n)
    | .vint64 _ => do
      let n ← assertInt64 kv.2
      pure (toString n)
    | .vfloat32 r => .ok r
    | .vfloat64 r => .ok r
    | .vbool b => .ok (if b then "true" else "false")
    | .vstring s => .ok s
    | .vnull => .ok ""

/-! Helper lemmas. -/

theorem splitLast_concat (xs : List String) (a : String) :
    splitLast (xs ++ [a]) = some (xs, a) := by
  simp [splitLast, List.getLast?_concat, List.dropLast_concat]

theorem lookupFS_removeKey_self (fs : FS) (p : Path) :
    lookupFS (removeKey fs p) p = none := by
  induction fs with
  | nil => rfl
  | cons a t ih =>
    rcases a with ⟨ap, ae⟩
    by_cases h : ap = p
    · simpa [removeKey, List.filter_cons, h] using ih
    · simpa [removeKey, List.filter_cons, h, lookupFS] using ih

theorem lookupFS_removeKey_ne (fs : FS) (p q : Path) (h : q ≠ p) :
    lookupFS (removeKey fs p) q = lookupFS fs q := by
  induction fs with
  | nil => rfl
  | cons a t ih =>
    rcases a with ⟨ap, ae⟩
    by_cases ha : ap = p
    · subst ha
      have hnq : ap ≠ q := fun hpq => h hpq.symm
      simpa [removeKey, List.filter_cons, lookupFS, hnq] using ih
    · by_cases hq : ap = q
      · simp [removeKey, List.filter_cons, ha, lookupFS, hq, h]
      · simpa [removeKey, List.filter_cons, ha, lookupFS, hq] using ih

theorem lookupFS_insertFS_self (fs : FS) (p : Path) (e : Entry) :
    lookupFS (insertFS fs p e) p = some e := by
  simp [insertFS, lookupFS]

theorem lookupFS_insertFS_ne (fs : FS) (p q : Path) (e : Entry) (h : q ≠ p) :
    lookupFS (insertFS fs p e) q = lookupFS fs q := by
  have hpq : p ≠ q := fun hpq => h hpq.symm
  have h1 : lookupFS (insertFS fs p e) q = lookupFS (removeKey fs p) q := by
    simp [insertFS, removeKey, lookupFS, hpq]
  rw [h1, lookupFS_removeKey_ne fs p q h]

/-- Walking `xs ++ ys` from `cur` first walks `xs`; when `xs` lands on a
real directory `q` inside the root (under either call mode), the rest of
the walk continues from `q`. -/
theorem resolveGo_append (fs : FS) (root : Path) (fuel : Nat) :
    ∀ (xs : List String) (d d' : Bool) (cur q : Path) (ys : List String),
      ys ≠ [] →
      resolveGo fs root fuel d cur xs = .inside q .dir →
      resolveGo fs root fuel d' cur (xs ++ ys) = resolveGo fs root fuel d' q ys := by
  intro xs
  induction xs with
  | nil =>
    intro d d' cur q ys hys h
    simp only [resolveGo] at h
    rcases hl : lookupFS fs cur with _ | e <;> rw [hl] at h <;> simp at h
    rw [List.nil_append, h.1]
  | cons c xs' ih =>
    intro d d' cur q ys hys h
    rcases ys with _ | ⟨y, ys'⟩
    · exact absurd rfl hys
    rcases xs' with _ | ⟨x, xs''⟩
    · simp only [resolveGo] at h
      simp only [List.cons_append, List.nil_append, resolveGo]
      by_cases hc : c = "" ∨ c = "."
      · rw [if_pos hc] at h
        rw [if_pos hc]
        simpa using ih d d' cur q (y :: ys') hys h
      · rw [if_neg hc] at h
        rw [if_neg hc]
        by_cases hc2 : c = ".."
        · rw [if_pos hc2] at h
          rw [if_pos hc2]
          simpa using ih d d' _ q (y :: ys') hys h
        · rw [if_neg hc2] at h
          rw [if_neg hc2]
          rcases hch : chase fs root fuel (cur ++ [c]) with ⟨q', e⟩ | p' | _ | _ <;>
            rw [hch] at h
          · rcases e with cont | _ | t
            · cases d <;> simp at h
            · have hq : q' = q := by simpa using h
              simp [hq]
            · cases d <;> simp at h
          · simp at h
          · cases d <;> simp at h
          · simp at h
    · simp only [resolveGo] at h
      simp only [List.cons_append, resolveGo]
      by_cases hc : c = "" ∨ c = "."
      · rw [if_pos hc] at h
        rw [if_pos hc]
        simpa using ih d d' cur q (y :: ys') hys h
      · rw [if_neg hc] at h
        rw [if_neg hc]
        by_cases hc2 : c = ".."
        · rw [if_pos hc2] at h
          rw [if_pos hc2]
          simpa using ih d d' _ q (y :: ys') hys h
        · rw [if_neg hc2] at h
          rw [if_neg hc2]
          rcases hch : chase fs root fuel (cur ++ [c]) with ⟨q', e⟩ | p' | _ | _ <;>
            rw [hch] at h
          · rcases e with cont | _ | t
            · simp at h
            · simp only [] at h
              have h2 : resolveGo fs root fuel d q' (x :: xs'') = .inside q .dir := by
                simpa using h
              simpa using ih d d' q' q (y :: ys') hys h2
            · simp at h
          · simp at h
          · simp at h
          · simp at h


/-! Claim theorems. -/

/-- C1: for every relative path whose fully-resolved target lies outside
the sandbox root (including symlinks, possibly chained, whose targets lie
or would lie outside the root — the resolver classifies the path itself
as an escape), `Write` and `CreateDirectory` addressing it return
`BadPathResolution`, while `Copy` and `Stat` return `NotExist`. -/
theorem c1_outside_resolution_errors (sb : SB) (pc nc : List String)
    (data : List Nat)
    (h : resolvePath sb.fs sb.root false (pc ++ nc) = .outside) :
    Writefile sb (pc ++ nc) data = .error .BadPathResolution ∧
    CreateDirectory sb nc pc = .error .BadPathResolution ∧
    Copy sb (pc ++ nc) = .error .NotExist ∧
    Stat sb (pc ++ nc) = .error .NotExist := by
  refine ⟨?_, ?_, ?_, ?_⟩ <;> simp [Writefile, CreateDirectory, Copy, Stat, h]

/-- Witness for C1 on the symlink-test fixture: a symlink to an existing
outside file, and a chained symlink whose final target would lie outside
the root without existing. -/
theorem c1_witness :
    (Writefile testSB ([] ++ ["symlinked.txt"]) [1] = .error .BadPathResolution ∧
     CreateDirectory testSB ["symlinked.txt"] [] = .error .BadPathResolution ∧
     Copy testSB ([] ++ ["symlinked.txt"]) = .error .NotExist ∧
     Stat testSB ([] ++ ["symlinked.txt"]) = .error .NotExist) ∧
    (Writefile testSB ([] ++ ["symlinked_does_not_exist2.txt"]) [1] = .error .BadPathResolution ∧
     CreateDirectory testSB ["symlinked_does_not_exist2.txt"] [] = .error .BadPathResolution ∧
     Copy testSB ([] ++ ["symlinked_does_not_exist2.txt"]) = .error .NotExist ∧
     Stat testSB ([] ++ ["symlinked_does_not_exist2.txt"]) = .error .NotExist) :=
  ⟨c1_outside_resolution_errors testSB [] ["symlinked.txt"] [1] (by decide),
   c1_outside_resolution_errors testSB [] ["symlinked_does_not_exist2.txt"] [1] (by decide)⟩

/-- C2: for every path with an ancestor directory component that is a
symlink resolving outside the sandbox root (the chase of that component
escapes), every operation addressing a descendant of that component —
writing a file under it, creating a directory under it, or renaming an
existing entry to a destination under it — returns `NotDirectory`. -/
theorem c2_ancestor_escape_not_directory (sb : SB) (pre : List String)
    (q : Path) (c : String) (mid : List String) (lastn : String)
    (data : List Nat) (odir : List String) (oname : String) (oq : Path) (e : Entry)
    (hpre : resolvePath sb.fs sb.root false pre = .inside q .dir)
    (hdot : ¬(c = "" ∨ c = ".")) (hdd : c ≠ "..")
    (hesc : chase sb.fs sb.root hopBudget (q ++ [c]) = .escape)
    (hoq : resolvePath sb.fs sb.root true odir = .inside oq .dir)
    (hoe : lookupFS sb.fs (oq ++ [oname]) = some e) :
    Writefile sb (pre ++ c :: (mid ++ [lastn])) data = .error .NotDirectory ∧
    CreateDirectory sb (c :: (mid ++ [lastn])) pre = .error .NotDirectory ∧
    Rename sb (odir ++ [oname]) (pre ++ c :: (mid ++ [lastn])) = .error .NotDirectory := by
  have key : ∀ d : Bool,
      resolveGo sb.fs sb.root hopBudget d sb.root (pre ++ c :: (mid ++ [lastn])) = .notDir := by
    intro d
    rw [resolveGo_append sb.fs sb.root hopBudget pre false d sb.root q
      (c :: (mid ++ [lastn])) (by simp) hpre]
    rcases mid with _ | ⟨m, ms⟩
    · simp only [List.nil_append, resolveGo]
      rw [if_neg hdot, if_neg hdd, hesc]
    · simp only [List.cons_append, resolveGo]
      rw [if_neg hdot, if_neg hdd, hesc]
  have hnd : resolvePath sb.fs sb.root true (pre ++ c :: mid) = .notDir := by
    rw [resolvePath, resolveGo_append sb.fs sb.root hopBudget pre false true sb.root q
      (c :: mid) (by simp) hpre]
    rcases mid with _ | ⟨m, ms⟩
    · simp only [resolveGo]
      rw [if_neg hdot, if_neg hdd, hesc]
      simp
    · simp only [resolveGo]
      rw [if_neg hdot, if_neg hdd, hesc]
  have hsplit : splitLast (pre ++ c :: (mid ++ [lastn])) = some (pre ++ c :: mid, lastn) := by
    rw [show pre ++ c :: (mid ++ [lastn]) = (pre ++ c :: mid) ++ [lastn] by simp,
      splitLast_concat]
  refine ⟨?_, ?_, ?_⟩
  · simp [Writefile, resolvePath, key false]
  · simp [CreateDirectory, resolvePath, key false]
  · simp [Rename, splitLast_concat, hsplit, hoq, hoe, hnd]

/-- Witness for C2 on the symlink-test fixture: `external_dir` is a
symlink to a directory outside the root; writing under it, creating a
directory under it and renaming `my_file.txt` under it all fail with
`NotDirectory`. -/
theorem c2_witness :
    Writefile testSB ([] ++ "external_dir" :: ([] ++ ["foo.txt"])) [1] = .error .NotDirectory ∧
    CreateDirectory testSB ("external_dir" :: ([] ++ ["foo.txt"])) [] = .error .NotDirectory ∧
    Rename testSB ([] ++ ["my_file.txt"]) ([] ++ "external_dir" :: ([] ++ ["foo.txt"])) =
      .error .NotDirectory :=
  c2_ancestor_escape_not_directory testSB [] ["r", "server"] "external_dir" [] "foo.txt"
    [1] [] "my_file.txt" ["r", "server"] (Entry.file [1, 2])
    (by decide) (by decide) (by decide) (by decide) (by decide) (by decide)

/-- C3 counterexample: the two-run indistinguishability fails for write
operations.  On the test fixture, `symlinked.txt` resolves outside the
sandbox and `Writefile` answers `BadPathResolution`, while the same
`Writefile` on `newfile.txt` — a path that simply does not exist
(`Stat` answers `NotExist`) — succeeds, so the two responses differ. -/
theorem c3_counterexample :
    Writefile testSB ["symlinked.txt"] [1, 2] = .error .BadPathResolution ∧
    Stat testSB ["newfile.txt"] = .error .NotExist ∧
    (Writefile testSB ["newfile.txt"] [1, 2]).toOption.isSome = true ∧
    Writefile testSB ["symlinked.txt"] [1, 2] ≠ Writefile testSB ["newfile.txt"] [1, 2] := by
  refine ⟨by decide, by decide, by decide, by decide⟩

/-- C3 (amended): the indistinguishability holds for the strict read-side
operations — for a path whose resolution escapes the sandbox, `Stat` and
`Copy` answer exactly what they answer on a path that does not exist,
namely `NotExist`; creating operations instead report the escape
distinctly (see the counterexample). -/
theorem c3_strict_indistinguishable (sb : SB) (p1 p2 : List String)
    (par : Path) (suf : List String)
    (h1 : resolvePath sb.fs sb.root false p1 = .outside)
    (h2 : resolvePath sb.fs sb.root false p2 = .missing par suf) :
    Stat sb p1 = Stat sb p2 ∧ Copy sb p1 = Copy sb p2 ∧
    Stat sb p1 = .error .NotExist ∧ Copy sb p1 = .error .NotExist := by
  refine ⟨?_, ?_, ?_, ?_⟩ <;> simp [Stat, Copy, h1, h2]

/-- Witness for the amended C3 on the test fixture: the escaping
`symlinked.txt` versus the absent `newfile.txt`. -/
theorem c3_witness :
    Stat testSB ["symlinked.txt"] = Stat testSB ["newfile.txt"] ∧
    Copy testSB ["symlinked.txt"] = Copy testSB ["newfile.txt"] ∧
    Stat testSB ["symlinked.txt"] = .error .NotExist ∧
    Copy testSB ["symlinked.txt"] = .error .NotExist :=
  c3_strict_indistinguishable testSB ["symlinked.txt"] ["newfile.txt"]
    ["r", "server"] ["newfile.txt"] (by decide) (by decide)

/-- C4: a write whose size would push usage over the quota fails with
`QuotaExceeded` and (errors carrying no new state in this model) leaves
contents and usage unchanged — stated for both an overwrite of an
existing file and a fresh creation — together with the concrete scenario:
quota 100, `Write("a.txt", 60)` ok with usage 60, `Write("b.txt", 50)`
fails `QuotaExceeded` with usage still 60, `Delete("a.txt")` returns to
the initial state with usage 0, and the retried `Write("b.txt", 50)`
succeeds with usage 50. -/
theorem c4_quota_enforced :
    (∀ (sb : SB) (comps : List String) (data : List Nat) (q : Path) (old : List Nat),
        resolvePath sb.fs sb.root false comps = .inside q (.file old) →
        sb.usage - old.length + data.length > sb.quota →
        Writefile sb comps data = .error .QuotaExceeded) ∧
    (∀ (sb : SB) (comps : List String) (data : List Nat) (par : Path) (suf : List String),
        resolvePath sb.fs sb.root false comps = .missing par suf →
        sb.usage + data.length > sb.quota →
        Writefile sb comps data = .error .QuotaExceeded) ∧
    (Writefile quotaSB ["a.txt"] d60 = .ok quotaSB1 ∧
     quotaSB1.usage = 60 ∧
     Writefile quotaSB1 ["b.txt"] d50 = .error .QuotaExceeded ∧
     Delete quotaSB1 ["a.txt"] = .ok quotaSB ∧
     quotaSB.usage = 0 ∧
     Writefile quotaSB ["b.txt"] d50 = .ok quotaSB3 ∧
     quotaSB3.usage = 50) := by
  refine ⟨?_, ?_, ?_⟩
  · intro sb comps data q old h hq
    simp only [Writefile, h]
    rw [if_pos hq]
  · intro sb comps data par suf h hq
    simp only [Writefile, h]
    rw [if_pos hq]
  · exact ⟨by decide, by decide, by decide, by decide, by decide, by decide, by decide⟩

/-- Witness for C4's universally quantified conjuncts: overwriting
`a.txt` with 150 bytes (60 - 60 + 150 > 100) and creating `b.txt` with 50
bytes at usage 60 (60 + 50 > 100) both fail `QuotaExceeded`. -/
theorem c4_witness :
    Writefile quotaSB1 ["a.txt"] (List.replicate 150 0) = .error .QuotaExceeded ∧
    Writefile quotaSB1 ["b.txt"] d50 = .error .QuotaExceeded :=
  ⟨c4_quota_enforced.1 quotaSB1 ["a.txt"] (List.replicate 150 0)
      ["r", "server", "a.txt"] d60 (by decide) (by decide),
   c4_quota_enforced.2.1 quotaSB1 ["b.txt"] d50 ["r", "server"] ["b.txt"]
      (by decide) (by decide)⟩

/-- C5: `Delete` on a path naming a symlink inside the root removes only
the link entry: afterwards the named entry is gone, while the link's
target — wherever it lies, even outside the root — still exists with
unchanged contents, and the usage counter is untouched. -/
theorem c5_delete_symlink_only (sb : SB) (ddir : List String) (name : String)
    (q t : Path) (cont : List Nat)
    (hq : resolvePath sb.fs sb.root true ddir = .inside q .dir)
    (hl : lookupFS sb.fs (q ++ [name]) = some (.symlink t))
    (ht : lookupFS sb.fs t = some (.file cont)) :
    Delete sb (ddir ++ [name]) = .ok { sb with fs := removeKey sb.fs (q ++ [name]) } ∧
    lookupFS (removeKey sb.fs (q ++ [name])) (q ++ [name]) = none ∧
    lookupFS (removeKey sb.fs (q ++ [name])) t = some (.file cont) := by
  have hne : t ≠ q ++ [name] := by
    intro he
    rw [he, hl] at ht
    simp at ht
  refine ⟨?_, lookupFS_removeKey_self sb.fs (q ++ [name]),
    (lookupFS_removeKey_ne sb.fs (q ++ [name]) t hne).trans ht⟩
  simp [Delete, splitLast_concat, hq, hl, entrySize]

/-- Witness for C5 on the symlink-test fixture: deleting `symlinked.txt`
removes the link entry while the outside target `r/malicious.txt` keeps
its contents. -/
theorem c5_witness :
    Delete testSB ([] ++ ["symlinked.txt"]) =
      .ok { testSB with fs := removeKey testSB.fs (["r", "server"] ++ ["symlinked.txt"]) } ∧
    lookupFS (removeKey testSB.fs (["r", "server"] ++ ["symlinked.txt"]))
      (["r", "server"] ++ ["symlinked.txt"]) = none ∧
    lookupFS (removeKey testSB.fs (["r", "server"] ++ ["symlinked.txt"]))
      ["r", "malicious.txt"] = some (.file [10]) :=
  c5_delete_symlink_only testSB [] "symlinked.txt" ["r", "server"] ["r", "malicious.txt"]
    [10] (by decide) (by decide) (by decide)

/-- C6: `Rename(a, b)` where `a` is a symlink — including one whose
target lies outside the sandbox root — succeeds and relocates the link
entry itself: afterwards `a` no longer exists, and `b` is a symlink
carrying exactly the target the original link pointed to. -/
theorem c6_rename_symlink (sb : SB) (odir ndir : List String) (oname nname : String)
    (oq nq t : Path)
    (hoq : resolvePath sb.fs sb.root true odir = .inside oq .dir)
    (hol : lookupFS sb.fs (oq ++ [oname]) = some (.symlink t))
    (hnq : resolvePath sb.fs sb.root true ndir = .inside nq .dir)
    (hne : oq ++ [oname] ≠ nq ++ [nname]) :
    Rename sb (odir ++ [oname]) (ndir ++ [nname]) =
      .ok { sb with
            fs := insertFS (removeKey sb.fs (oq ++ [oname])) (nq ++ [nname]) (.symlink t) } ∧
    lookupFS (insertFS (removeKey sb.fs (oq ++ [oname])) (nq ++ [nname]) (.symlink t))
      (oq ++ [oname]) = none ∧
    lookupFS (insertFS (removeKey sb.fs (oq ++ [oname])) (nq ++ [nname]) (.symlink t))
      (nq ++ [nname]) = some (.symlink t) := by
  refine ⟨?_, ?_, lookupFS_insertFS_self _ _ _⟩
  · simp [Rename, splitLast_concat, hoq, hol, hnq]
  · rw [lookupFS_insertFS_ne _ _ _ _ hne, lookupFS_removeKey_self]

/-- Witness for C6 on the symlink-test fixture: renaming the escaping
link `symlinked.txt` to `foo.txt` relocates the link entry, which still
points at the outside target `r/malicious.txt`. -/
theorem c6_witness :
    Rename testSB ([] ++ ["symlinked.txt"]) ([] ++ ["foo.txt"]) =
      .ok { testSB with
            fs := insertFS (removeKey testSB.fs (["r", "server"] ++ ["symlinked.txt"]))
                    (["r", "server"] ++ ["foo.txt"]) (.symlink ["r", "malicious.txt"]) } ∧
    lookupFS (insertFS (removeKey testSB.fs (["r", "server"] ++ ["symlinked.txt"]))
        (["r", "server"] ++ ["foo.txt"]) (.symlink ["r", "malicious.txt"]))
      (["r", "server"] ++ ["symlinked.txt"]) = none ∧
    lookupFS (insertFS (removeKey testSB.fs (["r", "server"] ++ ["symlinked.txt"]))
        (["r", "server"] ++ ["foo.txt"]) (.symlink ["r", "malicious.txt"]))
      (["r", "server"] ++ ["foo.txt"]) = some (.symlink ["r", "malicious.txt"]) :=
  c6_rename_symlink testSB [] [] "symlinked.txt" "foo.txt" ["r", "server"] ["r", "server"]
    ["r", "malicious.txt"] (by decide) (by decide) (by decide) (by decide)

theorem countP_replicate_zero {α : Type} (p : α → Bool) (v : α) (h : p v = false) :
    ∀ n : Nat, (List.replicate n v).countP p = 0 := by
  intro n
  induction n with
  | zero => rfl
  | succ n ih => simp [List.replicate_succ, List.countP_cons, h, ih]

theorem all_replicate_of {α : Type} (p : α → Bool) (v : α) (h : p v = true) :
    ∀ n : Nat, (List.replicate n v).all p = true := by
  intro n
  induction n with
  | zero => rfl
  | succ n ih => simp [List.replicate_succ, h, ih]

theorem runSched_true_no_construction (envs : List SchedEnv) :
    (runSched true envs).countP (fun r => r.constructed) = 0 := by
  induction envs with
  | nil => rfl
  | cons e es ih =>
    have hs : Scheduler true e =
        { sched := none, err := some .alreadyCalled, constructed := false, state := true } := rfl
    simp [runSched, hs, List.countP_cons, ih]

/-- C7: within one application lifecycle, at most the first call to
`cron.Scheduler` constructs a scheduler — the call sets the process-wide
flag, every call made with the flag already set returns a nil scheduler
and an error without re-entering construction (regardless of its
arguments), and along any sequence of calls the construction body runs at
most once. -/
theorem c7_scheduler_once :
    (∀ env : SchedEnv, (Scheduler false env).state = true) ∧
    (∀ env : SchedEnv, Scheduler true env =
        { sched := none, err := some .alreadyCalled, constructed := false, state := true }) ∧
    (∀ envs : List SchedEnv, (runSched false envs).countP (fun r => r.constructed) ≤ 1) := by
  refine ⟨?_, ?_, ?_⟩
  · intro env
    simp only [Scheduler, swapIf]
    split_ifs <;> simp_all
  · intro env
    rfl
  · intro envs
    rcases envs with _ | ⟨e, es⟩
    · simp [runSched]
    · have h1 : (Scheduler false e).state = true := by
        simp only [Scheduler, swapIf]
        split_ifs <;> simp_all
      simp [runSched, h1, List.countP_cons, runSched_true_no_construction es]
      split_ifs <;> simp

theorem runDocker_stuck (st : DockerSt) (h : st.onceDone = true) :
    ∀ es : List (Except String Nat),
      runDocker st es =
        List.replicate es.length { client := st.client, err := none, constructed := false } := by
  intro es
  induction es with
  | nil => rfl
  | cons e es ih =>
    have hd : Docker st e = ({ client := st.client, err := none, constructed := false }, st) := by
      simp [Docker, h]
    simp [runDocker, hd, List.replicate_succ, ih]

/-- C8: `Docker()` is idempotent — along any sequence of calls starting
from process start, the construction inside the once-guard runs at most
one time, and every call returns exactly the client handle the first
call's construction produced (nil included). -/
theorem c8_docker_idempotent (e : Except String Nat) (es : List (Except String Nat)) :
    ((runDocker initDockerSt (e :: es)).all fun r => r.client == e.toOption) = true ∧
    (runDocker initDockerSt (e :: es)).countP (fun r => r.constructed) ≤ 1 := by
  rcases e with m | c
  · have hrun : runDocker initDockerSt (Except.error m :: es) =
        { client := none, err := wrapErr (some m), constructed := true } ::
          List.replicate es.length { client := none, err := none, constructed := false } := by
      simp [runDocker, Docker, initDockerSt, runDocker_stuck ⟨true, none⟩ rfl es]
    rw [hrun]
    constructor
    · simp only [List.all_cons, Except.toOption]
      rw [all_replicate_of _ _ (by simp)]
      simp
    · simp only [List.countP_cons]
      rw [countP_replicate_zero (fun r : DockerResult => r.constructed) _ rfl]
      simp
  · have hrun : runDocker initDockerSt (Except.ok c :: es) =
        { client := some c, err := none, constructed := true } ::
          List.replicate es.length { client := some c, err := none, constructed := false } := by
      simp [runDocker, Docker, initDockerSt, runDocker_stuck ⟨true, some c⟩ rfl es]
    rw [hrun]
    constructor
    · simp only [List.all_cons, Except.toOption]
      rw [all_replicate_of _ _ (by simp)]
      simp
    · simp only [List.countP_cons]
      rw [countP_replicate_zero (fun r : DockerResult => r.constructed) _ rfl]
      simp

/-- C10: when the first `Docker()` call fails to construct a client, the
first caller sees the wrapped construction error with a nil client, and
every subsequent call returns a nil client together with a nil error
without retrying construction — the error is observable only by the
first caller. -/
theorem c10_docker_error_observed_once (msg : String) (es : List (Except String Nat)) :
    (runDocker initDockerSt (Except.error msg :: es)).head? =
      some { client := none,
             err := some ("environment/docker: could not create client: " ++ msg),
             constructed := true } ∧
    (runDocker initDockerSt (Except.error msg :: es)).tail =
      List.replicate es.length { client := none, err := none, constructed := false } := by
  constructor
  · rfl
  · simp [runDocker, Docker, initDockerSt, runDocker_stuck ⟨true, none⟩ rfl es]

/-- C9: `Variables.Get` panics on an `int32` value — its `int32` arm
asserts the value to `int64`, which fails — instead of returning the
decimal string; an `int64` value of the same magnitude is rendered
normally. -/
theorem c9_variables_get_int32_panics :
    Variables.Get [("k", GoVal.vint32 5)] "k" =
      .error "interface conversion: interface is int32, not int64" ∧
    Variables.Get [("k", GoVal.vint64 5)] "k" = .ok "5" := by
  exact ⟨rfl, rfl⟩

end TW
